import Mathlib

/-
Verification of the Foam::messageStream component (OpenFOAM 2.3.x,
src/OpenFOAM/db/error/messageStream.H).  The header declares the data
model, the severity enumeration, the inline accessors, the inline
zero-argument call form and the three global reporter instances; the out
of line bodies live in messageStream.C, which is not part of this source
excerpt, so those behaviours are modelled from the specification and each
such definition says so in its doc comment.
-/

namespace Foam

/-- Severity flags of messageStream (messageStream.H lines 75 to 81):
INFO, WARNING, SERIOUS, FATAL, in increasing order of criticality. -/
inductive errorSeverity where
  | INFO
  | WARNING
  | SERIOUS
  | FATAL
deriving DecidableEq, Repr

/-- Numeric value of each C++ enumeration constant, in declaration order,
used for severity comparisons. -/
def errorSeverity.rank : errorSeverity → Nat
  | .INFO => 0
  | .WARNING => 1
  | .SERIOUS => 2
  | .FATAL => 3

/-- The messageStream state (messageStream.H lines 88 to 91): a title, a
severity, a maxErrors threshold and the running errorCount. -/
structure messageStream where
  title_ : String
  severity_ : errorSeverity
  maxErrors_ : Int
  errorCount_ : Int
deriving DecidableEq, Repr

/-- Construct from components (declared messageStream.H lines 104 to 109
with default maxErrors 0; the member initialisation is in messageStream.C,
absent from this excerpt, so it is modelled from the spec: the fields are
stored and errorCount starts at 0). -/
def messageStream.ofComponents (title : String) (severity : errorSeverity)
    (maxErrors : Int) : messageStream :=
  { title_ := title, severity_ := severity, maxErrors_ := maxErrors,
    errorCount_ := 0 }

/-- Return the title of this error type (messageStream.H lines 119 to 122). -/
def messageStream.title (ms : messageStream) : String :=
  ms.title_

/-- Return the maximum number of errors before program termination
(messageStream.H lines 125 to 128). -/
def messageStream.maxErrors (ms : messageStream) : Int :=
  ms.maxErrors_

/-- The non-const maxErrors accessor (messageStream.H lines 130 to 135),
modelled as a state update: assigning through the returned reference. -/
def messageStream.setMaxErrors (ms : messageStream) (n : Int) : messageStream :=
  { ms with maxErrors_ := n }

/-- A sink handle: either the real output destination or the no-op sink
that discards all writes. -/
inductive Sink where
  | realSink
  | nullSink
deriving DecidableEq, Repr

/-- Modelled from the spec: masterStream (declared messageStream.H line
139, body in messageStream.C, absent from this excerpt).  Returns the sink
bound to the real output destination only if the calling process is the
master for the communicator; otherwise the no-op sink.  The communicator
capability isMaster is an abstract parameter. -/
def messageStream.masterStream (ms : messageStream) (isMaster : Int → Bool)
    (communicator : Int) : Sink :=
  if isMaster communicator then Sink.realSink else Sink.nullSink

/-- The observable outcome of one report call: the updated reporter state,
whether the message was written to the real sink, whether the process
aborted and with which exit status, and the sink handle handed back to the
caller for further streaming. -/
structure ReportResult where
  reporter : messageStream
  wrote : Bool
  aborted : Bool
  exitStatus : Int
  sink : Sink
deriving DecidableEq, Repr

/-- Modelled from the spec: the output gate of a report call.  For INFO and
WARNING the write is gated by the explicit output flag together with the
process-wide debug level meeting the per-call-site requirement; for SERIOUS
and FATAL the reporter always attempts to write. -/
def emitGate (severity : errorSeverity) (output : Bool)
    (level minLevel : Int) : Bool :=
  if errorSeverity.SERIOUS.rank ≤ severity.rank then true
  else output && decide (minLevel ≤ level)

/-- Modelled from the spec: the termination policy checked on the emitting
path of a report call.  Abort on FATAL severity, or on SERIOUS severity
once errorCount exceeds a positive maxErrors threshold. -/
def messageStream.abortCheck (ms : messageStream) : Bool :=
  decide (ms.severity_ = errorSeverity.FATAL ∨
    (ms.severity_ = errorSeverity.SERIOUS ∧ 0 < ms.maxErrors_ ∧
      ms.maxErrors_ < ms.errorCount_))

/-- Modelled from the spec: the general report call form, covering the
operator() overloads declared at messageStream.H lines 144 to 194 whose
bodies are in messageStream.C, absent from this excerpt.  The call
increments errorCount when the severity is SERIOUS or worse, before the
output gate is consulted; it writes only when the gate allows it and the
process is the master; on the emitting path, after the write, it aborts
with a non-zero exit status when the termination policy fires; a
suppressed call returns the no-op sink and neither writes nor aborts. -/
def messageStream.report (ms : messageStream) (isMaster output : Bool)
    (level minLevel : Int) : ReportResult :=
  let ms1 := if errorSeverity.SERIOUS.rank ≤ ms.severity_.rank
    then { ms with errorCount_ := ms.errorCount_ + 1 } else ms
  let emit := emitGate ms.severity_ output level minLevel && isMaster
  let abort := emit && ms1.abortCheck
  { reporter := ms1
    wrote := emit
    aborted := abort
    exitStatus := if abort then 1 else 0
    sink := if emit then Sink.realSink else Sink.nullSink }

/-- The reporter state reached after k successive report calls with fixed
gating parameters. -/
def messageStream.runReports (ms : messageStream) (isMaster output : Bool)
    (level minLevel : Int) : Nat → messageStream
  | 0 => ms
  | Nat.succ k =>
      ((ms.runReports isMaster output level minLevel k).report
        isMaster output level minLevel).reporter

/-- A value stored in a configuration record field: a string or an
integer. -/
inductive ConfigValue where
  | str (s : String)
  | int (n : Int)
deriving DecidableEq, Repr

/-- The named-field configuration record (the dictionary collaborator),
consumed as an abstract key to value lookup; modelled as an association
list. -/
abbrev dictionary := List (String × ConfigValue)

/-- Lookup of a key in a configuration record. -/
def dictLookup (d : dictionary) (k : String) : Option ConfigValue :=
  match d with
  | [] => none
  | (k2, v) :: rest => if k2 = k then some v else dictLookup rest k

/-- Modelled from the spec: the failure conditions of construction from a
configuration record. -/
inductive ConfigError where
  | MissingKey (key : String)
  | TypeMismatch (key : String)
deriving DecidableEq, Repr

/-- Modelled from the spec: parsing the value of the severity-equivalent
key into a severity. -/
def parseSeverity (s : String) : Option errorSeverity :=
  if s = "INFO" then some errorSeverity.INFO
  else if s = "WARNING" then some errorSeverity.WARNING
  else if s = "SERIOUS" then some errorSeverity.SERIOUS
  else if s = "FATAL" then some errorSeverity.FATAL
  else none

/-- Modelled from the spec: construction from a configuration record
(declared messageStream.H line 113, body in messageStream.C, absent from
this excerpt).  Looks up title, the severity-equivalent key and the
optional maxErrors field (default 0); fails with MissingKey when a
required field is absent and with TypeMismatch when a present field cannot
be parsed as its expected type; any failure is surfaced at construction. -/
def messageStream.ofDictionary (d : dictionary) :
    Except ConfigError messageStream :=
  match dictLookup d "title" with
  | none => Except.error (ConfigError.MissingKey "title")
  | some (ConfigValue.int _) => Except.error (ConfigError.TypeMismatch "title")
  | some (ConfigValue.str t) =>
    match dictLookup d "severity" with
    | none => Except.error (ConfigError.MissingKey "severity")
    | some (ConfigValue.int _) =>
        Except.error (ConfigError.TypeMismatch "severity")
    | some (ConfigValue.str s) =>
      match parseSeverity s with
      | none => Except.error (ConfigError.TypeMismatch "severity")
      | some sev =>
        match dictLookup d "maxErrors" with
        | none => Except.ok
            { title_ := t, severity_ := sev, maxErrors_ := 0, errorCount_ := 0 }
        | some (ConfigValue.str _) =>
            Except.error (ConfigError.TypeMismatch "maxErrors")
        | some (ConfigValue.int n) => Except.ok
            { title_ := t, severity_ := sev, maxErrors_ := n, errorCount_ := 0 }

/-- Modelled from the spec: the implicit conversion operator OSstream&
(declared messageStream.H line 197, body in messageStream.C, absent from
this excerpt): hands back a sink with master-only gating and no
source-location header. -/
def messageStream.toOSstream (ms : messageStream) (isMaster : Bool) : Sink :=
  if isMaster then Sink.realSink else Sink.nullSink

/-- The explicit zero-argument call form (messageStream.H lines 200 to
203): its body is inline in the header and simply returns the result of
operator OSstream&(). -/
def messageStream.operatorCall0 (ms : messageStream) (isMaster : Bool) : Sink :=
  ms.toOSstream isMaster

/-- Modelled from the spec: the three global reporter instances declared
at messageStream.H lines 210 to 212 and defined in messageStream.C, absent
from this excerpt; one per severity class below FATAL.  Their titles and
initial thresholds are presentation details the spec does not fix. -/
def SeriousError : messageStream :=
  messageStream.ofComponents "SeriousError" errorSeverity.SERIOUS 0

/-- Modelled from the spec: the global WARNING reporter instance, see
SeriousError. -/
def Warning : messageStream :=
  messageStream.ofComponents "Warning" errorSeverity.WARNING 0

/-- Modelled from the spec: the global INFO reporter instance, see
SeriousError. -/
def Info : messageStream :=
  messageStream.ofComponents "Info" errorSeverity.INFO 0

/-! Helper lemmas about report and runReports. -/

/-- The reporter state produced by a report call, in closed form. -/
theorem report_reporter_eq (ms : messageStream) (m o : Bool) (l ml : Int) :
    (ms.report m o l ml).reporter =
      if errorSeverity.SERIOUS.rank ≤ ms.severity_.rank
      then { ms with errorCount_ := ms.errorCount_ + 1 } else ms :=
  rfl

/-- A report call never changes the title. -/
theorem report_title (ms : messageStream) (m o : Bool) (l ml : Int) :
    (ms.report m o l ml).reporter.title_ = ms.title_ := by
  rw [report_reporter_eq]
  split <;> rfl

/-- A report call never changes the severity. -/
theorem report_severity (ms : messageStream) (m o : Bool) (l ml : Int) :
    (ms.report m o l ml).reporter.severity_ = ms.severity_ := by
  rw [report_reporter_eq]
  split <;> rfl

/-- A report call never changes the maxErrors threshold. -/
theorem report_maxErrors (ms : messageStream) (m o : Bool) (l ml : Int) :
    (ms.report m o l ml).reporter.maxErrors_ = ms.maxErrors_ := by
  rw [report_reporter_eq]
  split <;> rfl

/-- Iterated reports never change the severity. -/
theorem runReports_severity (ms : messageStream) (m o : Bool) (l ml : Int)
    (k : Nat) : (ms.runReports m o l ml k).severity_ = ms.severity_ := by
  induction k with
  | zero => rfl
  | succ k ih =>
    rw [messageStream.runReports, report_severity, ih]

/-- Iterated reports never change the maxErrors threshold. -/
theorem runReports_maxErrors (ms : messageStream) (m o : Bool) (l ml : Int)
    (k : Nat) : (ms.runReports m o l ml k).maxErrors_ = ms.maxErrors_ := by
  induction k with
  | zero => rfl
  | succ k ih =>
    rw [messageStream.runReports, report_maxErrors, ih]

/-- On a reporter of SERIOUS severity, k iterated reports raise the
errorCount by exactly k. -/
theorem runReports_errorCount_serious (ms : messageStream)
    (h : ms.severity_ = errorSeverity.SERIOUS) (m o : Bool) (l ml : Int)
    (k : Nat) :
    (ms.runReports m o l ml k).errorCount_ = ms.errorCount_ + k := by
  induction k with
  | zero => simp [messageStream.runReports]
  | succ k ih =>
    rw [messageStream.runReports, report_reporter_eq]
    rw [runReports_severity ms m o l ml k, h]
    simp [errorSeverity.rank, ih]
    ring

/-- The aborted flag of a report call, in closed form. -/
theorem report_aborted_eq (ms : messageStream) (m o : Bool) (l ml : Int) :
    (ms.report m o l ml).aborted =
      ((emitGate ms.severity_ o l ml && m) &&
        (ms.report m o l ml).reporter.abortCheck) :=
  rfl

/-- The wrote flag of a report call, in closed form. -/
theorem report_wrote_eq (ms : messageStream) (m o : Bool) (l ml : Int) :
    (ms.report m o l ml).wrote = (emitGate ms.severity_ o l ml && m) :=
  rfl

/-- The output gate is open for SERIOUS and FATAL severities. -/
theorem emitGate_serious (o : Bool) (l ml : Int) :
    emitGate errorSeverity.SERIOUS o l ml = true := by
  rfl

/-- On a reporter of SERIOUS severity, a report call raises the errorCount
of the returned reporter by one. -/
theorem report_errorCount_serious (ms : messageStream)
    (h : ms.severity_ = errorSeverity.SERIOUS) (m o : Bool) (l ml : Int) :
    (ms.report m o l ml).reporter.errorCount_ = ms.errorCount_ + 1 := by
  rw [report_reporter_eq, h]
  simp [errorSeverity.rank]

/-- The sink of a report call, in closed form. -/
theorem report_sink_eq (ms : messageStream) (m o : Bool) (l ml : Int) :
    (ms.report m o l ml).sink =
      (if (emitGate ms.severity_ o l ml && m) = true
        then Sink.realSink else Sink.nullSink) :=
  rfl

/-- The exit status of a report call, in closed form. -/
theorem report_exitStatus_eq (ms : messageStream) (m o : Bool) (l ml : Int) :
    (ms.report m o l ml).exitStatus =
      (if (ms.report m o l ml).aborted = true then 1 else 0) :=
  rfl

/-- The termination policy on a SERIOUS reporter fires exactly when the
errorCount exceeds a positive maxErrors threshold. -/
theorem abortCheck_serious (ms : messageStream)
    (h : ms.severity_ = errorSeverity.SERIOUS) :
    ms.abortCheck = decide (0 < ms.maxErrors_ ∧ ms.maxErrors_ < ms.errorCount_) := by
  simp [messageStream.abortCheck, h]

/-! Claim theorems. -/

/-- C3: a report call increments errorCount by exactly 1 when the
severity is SERIOUS or FATAL and leaves it unchanged when the severity is
INFO or WARNING, for every value of the master flag, the explicit output
gate and the debug level, so suppression never affects counting. -/
theorem C3_errorCount_counting (ms : messageStream) (m o : Bool)
    (l ml : Int) :
    (ms.report m o l ml).reporter.errorCount_ =
      (if ms.severity_ = errorSeverity.SERIOUS ∨
          ms.severity_ = errorSeverity.FATAL
        then ms.errorCount_ + 1 else ms.errorCount_) := by
  rw [report_reporter_eq]
  cases h : ms.severity_ <;> simp [errorSeverity.rank, h]

/-- C10: the explicit zero-argument call form returns exactly the same
sink as the implicit conversion to OSstream, for every reporter and every
master flag: the header defines the former as the latter. -/
theorem C10_call0_eq_conversion (ms : messageStream) (isMaster : Bool) :
    ms.operatorCall0 isMaster = ms.toOSstream isMaster :=
  rfl

/-- C9: the component exposes three global reporter instances, one of
SERIOUS severity, one of WARNING severity and one of INFO severity, and on
each of them the mutable maxErrors accessor sets that instance to an
arbitrary new threshold while leaving its severity unchanged. -/
theorem C9_three_global_reporters (n1 n2 n3 : Int) :
    SeriousError.severity_ = errorSeverity.SERIOUS ∧
    Warning.severity_ = errorSeverity.WARNING ∧
    Info.severity_ = errorSeverity.INFO ∧
    (SeriousError.setMaxErrors n1).maxErrors = n1 ∧
    (Warning.setMaxErrors n2).maxErrors = n2 ∧
    (Info.setMaxErrors n3).maxErrors = n3 ∧
    (SeriousError.setMaxErrors n1).severity_ = errorSeverity.SERIOUS ∧
    (Warning.setMaxErrors n2).severity_ = errorSeverity.WARNING ∧
    (Info.setMaxErrors n3).severity_ = errorSeverity.INFO :=
  ⟨rfl, rfl, rfl, rfl, rfl, rfl, rfl, rfl, rfl⟩

/-- C6: constructing a reporter from a configuration record with title X,
severity WARNING and maxErrors 5 succeeds and yields a reporter whose
title accessor returns X, whose maxErrors accessor returns 5 and whose
severity is WARNING. -/
theorem C6_dictionary_roundtrip :
    ∃ ms : messageStream,
      messageStream.ofDictionary
        [("title", ConfigValue.str "X"),
          ("severity", ConfigValue.str "WARNING"),
          ("maxErrors", ConfigValue.int 5)] = Except.ok ms ∧
      ms.title = "X" ∧ ms.maxErrors = 5 ∧
      ms.severity_ = errorSeverity.WARNING := by
  exact ⟨_, rfl, rfl, rfl, rfl⟩

/-- C4: masterStream returns the no-op sink on every process that is not
the master for the given communicator, so such a process never writes to
the real sink through it, and returns the sink bound to the real output
destination on the master. -/
theorem C4_masterStream_gating (ms : messageStream) (isMaster : Int → Bool)
    (comm : Int) :
    (isMaster comm = false →
      ms.masterStream isMaster comm = Sink.nullSink) ∧
    (isMaster comm = true →
      ms.masterStream isMaster comm = Sink.realSink) := by
  constructor <;> intro h <;> simp [messageStream.masterStream, h]

/-- Witness for C4 at a concrete communicator capability where process 0
is the master, evaluated at a non-master and at the master communicator. -/
theorem C4_masterStream_gating_witness :
    (messageStream.ofComponents "t" errorSeverity.INFO 0).masterStream
      (fun c => decide (c = 0)) 1 = Sink.nullSink ∧
    (messageStream.ofComponents "t" errorSeverity.INFO 0).masterStream
      (fun c => decide (c = 0)) 0 = Sink.realSink :=
  ⟨(C4_masterStream_gating _ _ 1).1 (by decide),
    (C4_masterStream_gating _ _ 0).2 (by decide)⟩

/-- C1: on a reporter of SERIOUS severity with maxErrors = N > 0, none of
the first N report calls terminates the process, whatever the gating, and
the call following N reports, issued on the master process, writes its
message and terminates the process. -/
theorem C1_serious_error_budget (t : String) (N : Nat) (hN : 0 < N)
    (m o : Bool) (l ml : Int) (k : Nat) (hk : k < N) :
    ((((messageStream.ofComponents t errorSeverity.SERIOUS
        ((N : Nat) : Int)).runReports m o l ml k).report m o l ml).aborted
          = false) ∧
    ((((messageStream.ofComponents t errorSeverity.SERIOUS
        ((N : Nat) : Int)).runReports true o l ml N).report true o l ml).aborted
          = true) ∧
    ((((messageStream.ofComponents t errorSeverity.SERIOUS
        ((N : Nat) : Int)).runReports true o l ml N).report true o l ml).wrote
          = true) := by
  set ms0 := messageStream.ofComponents t errorSeverity.SERIOUS
    ((N : Nat) : Int) with hms0
  have hsev : ms0.severity_ = errorSeverity.SERIOUS := rfl
  have hmax : ms0.maxErrors_ = ((N : Nat) : Int) := rfl
  have hcnt0 : ms0.errorCount_ = 0 := rfl
  have hsN : (ms0.runReports true o l ml N).severity_ = errorSeverity.SERIOUS :=
    (runReports_severity ms0 true o l ml N).trans hsev
  have hmN : (ms0.runReports true o l ml N).maxErrors_ = ((N : Nat) : Int) :=
    (runReports_maxErrors ms0 true o l ml N).trans hmax
  have hcN : (ms0.runReports true o l ml N).errorCount_ = ((N : Nat) : Int) := by
    rw [runReports_errorCount_serious ms0 hsev true o l ml N, hcnt0]
    ring
  refine ⟨?_, ?_, ?_⟩
  · have hsk : (ms0.runReports m o l ml k).severity_ = errorSeverity.SERIOUS :=
      (runReports_severity ms0 m o l ml k).trans hsev
    have hmk : (ms0.runReports m o l ml k).maxErrors_ = ((N : Nat) : Int) :=
      (runReports_maxErrors ms0 m o l ml k).trans hmax
    have hck : (ms0.runReports m o l ml k).errorCount_ = ((k : Nat) : Int) := by
      rw [runReports_errorCount_serious ms0 hsev m o l ml k, hcnt0]
      ring
    have hac : (((ms0.runReports m o l ml k).report m o l ml).reporter).abortCheck
        = false := by
      rw [abortCheck_serious _ ((report_severity _ m o l ml).trans hsk),
        report_maxErrors, hmk, report_errorCount_serious _ hsk, hck]
      simp only [decide_eq_false_iff_not]
      omega
    rw [report_aborted_eq, hac]
    simp
  · have hac : (((ms0.runReports true o l ml N).report true o l ml).reporter).abortCheck
        = true := by
      rw [abortCheck_serious _ ((report_severity _ true o l ml).trans hsN),
        report_maxErrors, hmN, report_errorCount_serious _ hsN, hcN]
      simp only [decide_eq_true_eq]
      omega
    rw [report_aborted_eq, hac, hsN, emitGate_serious]
    rfl
  · rw [report_wrote_eq, hsN, emitGate_serious]
    rfl

/-- Witness for C1 at a SERIOUS reporter with maxErrors 2: the second call
does not terminate, while the third writes and terminates. -/
theorem C1_serious_error_budget_witness :
    (0 < 2) ∧ (1 < 2) ∧
    ((((messageStream.ofComponents "E" errorSeverity.SERIOUS
        ((2 : Nat) : Int)).runReports true true 0 0 1).report true true 0 0).aborted
          = false) ∧
    ((((messageStream.ofComponents "E" errorSeverity.SERIOUS
        ((2 : Nat) : Int)).runReports true true 0 0 2).report true true 0 0).aborted
          = true) ∧
    ((((messageStream.ofComponents "E" errorSeverity.SERIOUS
        ((2 : Nat) : Int)).runReports true true 0 0 2).report true true 0 0).wrote
          = true) := by
  have h := C1_serious_error_budget "E" 2 (by decide) true true 0 0 1 (by decide)
  exact ⟨by decide, by decide, h.1, h.2.1, h.2.2⟩

/-- C2: a reporter constructed with maxErrors = 0 and a severity below
FATAL never aborts, however many report calls are issued through it and
whatever the gating: a zero threshold means an unlimited error budget. -/
theorem C2_zero_budget_never_aborts (t : String) (sev : errorSeverity)
    (hsev : sev ≠ errorSeverity.FATAL) (m o : Bool) (l ml : Int) (k : Nat) :
    (((messageStream.ofComponents t sev 0).runReports m o l ml k).report
      m o l ml).aborted = false := by
  set ms0 := messageStream.ofComponents t sev 0 with hms0
  have hs0 : ms0.severity_ = sev := rfl
  have hm0 : ms0.maxErrors_ = 0 := rfl
  have h1 : ((ms0.runReports m o l ml k).report m o l ml).reporter.severity_
      = sev :=
    (report_severity _ m o l ml).trans
      ((runReports_severity ms0 m o l ml k).trans hs0)
  have h2 : ((ms0.runReports m o l ml k).report m o l ml).reporter.maxErrors_
      = 0 :=
    (report_maxErrors _ m o l ml).trans
      ((runReports_maxErrors ms0 m o l ml k).trans hm0)
  have hac : (((ms0.runReports m o l ml k).report m o l ml).reporter).abortCheck
      = false := by
    simp [messageStream.abortCheck, h1, h2, hsev]
  rw [report_aborted_eq, hac]
  simp

/-- Witness for C2: a SERIOUS reporter with maxErrors 0 does not abort on
its sixth report on the master. -/
theorem C2_zero_budget_never_aborts_witness :
    (errorSeverity.SERIOUS ≠ errorSeverity.FATAL) ∧
    (((messageStream.ofComponents "S" errorSeverity.SERIOUS 0).runReports
      true true 0 0 5).report true true 0 0).aborted = false :=
  ⟨by decide, C2_zero_budget_never_aborts "S" errorSeverity.SERIOUS
    (by decide) true true 0 0 5⟩

/-- C5: on a reporter of INFO or WARNING severity, a report call with the
explicit output gate set to false never writes to the real sink and hands
back the no-op sink, for every debug level and per-call-site level
requirement, on master and non-master alike. -/
theorem C5_output_false_never_writes (ms : messageStream)
    (hsev : ms.severity_ = errorSeverity.INFO ∨
      ms.severity_ = errorSeverity.WARNING)
    (m : Bool) (l ml : Int) :
    (ms.report m false l ml).wrote = false ∧
    (ms.report m false l ml).sink = Sink.nullSink := by
  have hg : emitGate ms.severity_ false l ml = false := by
    rcases hsev with h | h <;> simp [emitGate, h, errorSeverity.rank]
  refine ⟨?_, ?_⟩
  · rw [report_wrote_eq, hg]
    rfl
  · rw [report_sink_eq, hg]
    rfl

/-- Witness for C5 at a WARNING reporter with debug level 7 on the master
process. -/
theorem C5_output_false_never_writes_witness :
    ((messageStream.ofComponents "W" errorSeverity.WARNING 0).severity_
      = errorSeverity.WARNING ∨ False) ∧
    ((messageStream.ofComponents "W" errorSeverity.WARNING 0).report
      true false 7 0).wrote = false ∧
    ((messageStream.ofComponents "W" errorSeverity.WARNING 0).report
      true false 7 0).sink = Sink.nullSink := by
  have h := C5_output_false_never_writes
    (messageStream.ofComponents "W" errorSeverity.WARNING 0)
    (Or.inr rfl) true 7 0
  exact ⟨Or.inl rfl, h.1, h.2⟩

/-- C7: on a reporter of FATAL severity, a single report call on the
master writes its message and terminates the process with a non-zero exit
status. -/
theorem C7_fatal_terminates (ms : messageStream)
    (h : ms.severity_ = errorSeverity.FATAL) (o : Bool) (l ml : Int) :
    (ms.report true o l ml).wrote = true ∧
    (ms.report true o l ml).aborted = true ∧
    (ms.report true o l ml).exitStatus ≠ 0 := by
  have hg : emitGate ms.severity_ o l ml = true := by
    simp [emitGate, h, errorSeverity.rank]
  have hsev2 : (ms.report true o l ml).reporter.severity_
      = errorSeverity.FATAL :=
    (report_severity ms true o l ml).trans h
  have hac : (ms.report true o l ml).reporter.abortCheck = true := by
    simp [messageStream.abortCheck, hsev2]
  have ha : (ms.report true o l ml).aborted = true := by
    rw [report_aborted_eq, hg, hac]
    rfl
  refine ⟨?_, ha, ?_⟩
  · rw [report_wrote_eq, hg]
    rfl
  · rw [report_exitStatus_eq, ha]
    simp

/-- Witness for C7 at a concrete FATAL reporter. -/
theorem C7_fatal_terminates_witness :
    ((messageStream.ofComponents "Error" errorSeverity.FATAL 0).severity_
      = errorSeverity.FATAL) ∧
    ((messageStream.ofComponents "Error" errorSeverity.FATAL 0).report
      true true 0 0).wrote = true ∧
    ((messageStream.ofComponents "Error" errorSeverity.FATAL 0).report
      true true 0 0).aborted = true ∧
    ((messageStream.ofComponents "Error" errorSeverity.FATAL 0).report
      true true 0 0).exitStatus ≠ 0 := by
  have h := C7_fatal_terminates
    (messageStream.ofComponents "Error" errorSeverity.FATAL 0) rfl true 0 0
  exact ⟨rfl, h.1, h.2.1, h.2.2⟩

/-- C8: construction from a configuration record fails with MissingKey
when the title or the severity-equivalent key is absent, fails with
TypeMismatch when a present field cannot be parsed as its expected type,
the failure being the immediate result of construction, and treats
maxErrors as optional with default 0. -/
theorem C8_dictionary_construction_errors (d : dictionary) :
    (dictLookup d "title" = none →
      messageStream.ofDictionary d
        = Except.error (ConfigError.MissingKey "title")) ∧
    (∀ n : Int, dictLookup d "title" = some (ConfigValue.int n) →
      messageStream.ofDictionary d
        = Except.error (ConfigError.TypeMismatch "title")) ∧
    (∀ t : String, dictLookup d "title" = some (ConfigValue.str t) →
      dictLookup d "severity" = none →
      messageStream.ofDictionary d
        = Except.error (ConfigError.MissingKey "severity")) ∧
    (∀ (t : String) (n : Int),
      dictLookup d "title" = some (ConfigValue.str t) →
      dictLookup d "severity" = some (ConfigValue.int n) →
      messageStream.ofDictionary d
        = Except.error (ConfigError.TypeMismatch "severity")) ∧
    (∀ t s : String, dictLookup d "title" = some (ConfigValue.str t) →
      dictLookup d "severity" = some (ConfigValue.str s) →
      parseSeverity s = none →
      messageStream.ofDictionary d
        = Except.error (ConfigError.TypeMismatch "severity")) ∧
    (∀ (t s : String) (sev : errorSeverity) (v : String),
      dictLookup d "title" = some (ConfigValue.str t) →
      dictLookup d "severity" = some (ConfigValue.str s) →
      parseSeverity s = some sev →
      dictLookup d "maxErrors" = some (ConfigValue.str v) →
      messageStream.ofDictionary d
        = Except.error (ConfigError.TypeMismatch "maxErrors")) ∧
    (∀ (t s : String) (sev : errorSeverity),
      dictLookup d "title" = some (ConfigValue.str t) →
      dictLookup d "severity" = some (ConfigValue.str s) →
      parseSeverity s = some sev →
      dictLookup d "maxErrors" = none →
      messageStream.ofDictionary d = Except.ok
        { title_ := t, severity_ := sev, maxErrors_ := 0,
          errorCount_ := 0 }) := by
  refine ⟨?_, ?_, ?_, ?_, ?_, ?_, ?_⟩
  · intro h
    simp [messageStream.ofDictionary, h]
  · intro n h
    simp [messageStream.ofDictionary, h]
  · intro t h1 h2
    simp [messageStream.ofDictionary, h1, h2]
  · intro t n h1 h2
    simp [messageStream.ofDictionary, h1, h2]
  · intro t s h1 h2 h3
    simp [messageStream.ofDictionary, h1, h2, h3]
  · intro t s sev v h1 h2 h3 h4
    simp [messageStream.ofDictionary, h1, h2, h3, h4]
  · intro t s sev h1 h2 h3 h4
    simp [messageStream.ofDictionary, h1, h2, h3, h4]

/-- Witness for C8 across its failure modes and the maxErrors default, at
concrete configuration records. -/
theorem C8_dictionary_construction_errors_witness :
    (messageStream.ofDictionary []
      = Except.error (ConfigError.MissingKey "title")) ∧
    (messageStream.ofDictionary [("title", ConfigValue.int 3)]
      = Except.error (ConfigError.TypeMismatch "title")) ∧
    (messageStream.ofDictionary [("title", ConfigValue.str "X")]
      = Except.error (ConfigError.MissingKey "severity")) ∧
    (messageStream.ofDictionary
        [("title", ConfigValue.str "X"), ("severity", ConfigValue.int 9)]
      = Except.error (ConfigError.TypeMismatch "severity")) ∧
    (messageStream.ofDictionary
        [("title", ConfigValue.str "X"), ("severity", ConfigValue.str "BAD")]
      = Except.error (ConfigError.TypeMismatch "severity")) ∧
    (messageStream.ofDictionary
        [("title", ConfigValue.str "X"), ("severity", ConfigValue.str "INFO"),
          ("maxErrors", ConfigValue.str "five")]
      = Except.error (ConfigError.TypeMismatch "maxErrors")) ∧
    (messageStream.ofDictionary
        [("title", ConfigValue.str "X"), ("severity", ConfigValue.str "INFO")]
      = Except.ok
          { title_ := "X", severity_ := errorSeverity.INFO,
            maxErrors_ := 0, errorCount_ := 0 }) := by
  refine ⟨(C8_dictionary_construction_errors []).1 rfl,
    (C8_dictionary_construction_errors _).2.1 3 rfl,
    (C8_dictionary_construction_errors _).2.2.1 "X" rfl rfl,
    (C8_dictionary_construction_errors _).2.2.2.1 "X" 9 rfl rfl,
    (C8_dictionary_construction_errors _).2.2.2.2.1 "X" "BAD" rfl rfl rfl,
    (C8_dictionary_construction_errors _).2.2.2.2.2.1 "X" "INFO"
      errorSeverity.INFO "five" rfl rfl rfl rfl,
    (C8_dictionary_construction_errors _).2.2.2.2.2.2 "X" "INFO"
      errorSeverity.INFO rfl rfl rfl rfl⟩

end Foam
